import Mathlib

/-!
Verification of the quota-bounded subprocess runner of `tbbrdet_api`
(`tbbrdet_api/misc.py`), shallowly embedded in Lean 4.

The embedding models:
  * the disk-usage probe `get_disk_usage` (recursive byte sum, reported in
    GB rounded to two decimals with Python round-half-to-even semantics);
  * the node-capacity resolver `check_available_node_space`;
  * the quota monitor loop `monitor_disk_space` (its per-run effect);
  * the bounded runner `run_subprocess`, including the module-level
    `stop_thread` event that survives across invocations.

Filesystem state is abstracted as a function from a watched path to the
total byte count of regular files under it; the monitor thread's sampling
instants are abstracted as a list of filesystem snapshots; the child
process is abstracted by whether it exits within the timeout and with
which exit code. Python floats are modelled as exact rationals.
-/

namespace Tbbrdet

/-- A filesystem path (the argument of the disk-usage probe). -/
abbrev DirPath := String

/-- Abstract filesystem state: for each directory, the total number of
bytes of the regular files under it (the value the recursive summation in
`get_disk_usage` computes before conversion to GB). -/
abbrev Fs := DirPath → ℕ

/-- Python `round(x)` for a rational argument: round half to even
(banker's rounding), as the CPython `round` builtin does. -/
def roundHalfEven (q : ℚ) : ℤ :=
  if q - ⌊q⌋ < 1 / 2 then ⌊q⌋
  else if 1 / 2 < q - ⌊q⌋ then ⌊q⌋ + 1
  else if 2 ∣ ⌊q⌋ then ⌊q⌋ else ⌊q⌋ + 1

/-- Python `round(x, 2)`: round to two decimal places, half to even. -/
def pyRound2 (q : ℚ) : ℚ := (roundHalfEven (100 * q) : ℚ) / 100

/-- Model of `get_disk_usage(folder)` from `misc.py`: the byte total of the files
under `folder`, divided by `1024 ** 3` and rounded to two decimals. The
rounded GB figure is the return value, so every caller (pre-flight check,
monitor, resolver) compares this rounded figure against the limit. -/
def get_disk_usage (fs : Fs) (folder : DirPath) : ℚ :=
  pyRound2 ((fs folder : ℚ) / 1024 ^ 3)

/-- Model of `check_available_node_space(limit_gb)` from `misc.py`, on the path
where the `df` output parse succeeded. The parsed free-space integer is
the `free_gb` argument (the `ValueError` branch, which raises
`HTTPException`, is handled by the caller model `run_subprocess` via
`Env.free_parse = none`); `current_gb` is the value of `get_disk_usage()`
that line 303 reads. -/
def check_available_node_space (limit_gb : ℤ) (free_gb : ℤ) (current_gb : ℚ) : ℚ :=
  let available_gb : ℤ := max (free_gb - 3) 0
  let leftover_gb : ℚ := pyRound2 ((limit_gb : ℚ) - current_gb)
  if leftover_gb < (available_gb : ℚ) then (limit_gb : ℚ)
  else pyRound2 (current_gb + (available_gb : ℚ))

/-- Per-run effect of the `monitor_disk_space` loop: given the usage
figures it samples (one per 3-second tick), whether any sample reaches the
limit. On the first such sample the loop sets `stop_thread` and exits via
`sys.exit()`; with no such sample the `while True` loop keeps running. -/
def monitor_disk_space_trips (limit_gb : ℚ) (samples : List ℚ) : Bool :=
  samples.any (fun stored_gb => limit_gb ≤ stored_gb)

/-- The module-level state of `misc.py`: the `stop_thread` event declared
at line 23, shared by every invocation of `run_subprocess`. -/
structure ModState where
  stop_thread : Bool
deriving DecidableEq

/-- Environment observed by one invocation of `run_subprocess`:
the filesystem at invocation start, the parsed node free space
(`none` models the `ValueError` from an unparsable `df` output), the
filesystem snapshots at the monitor's sampling instants, and the child's
exit code (`none` models `process.wait` raising `TimeoutExpired`). -/
structure Env where
  fs0 : Fs
  free_parse : Option ℤ
  samples : List Fs
  child_exit : Option ℤ

/-- Terminal outcome of one `run_subprocess` invocation. -/
inductive RunResult where
  | success
  | diskSpaceExceeded
  | timeoutExpired
  | httpException (code : ℤ)
  | capacityError
deriving DecidableEq

/-- What one invocation of `run_subprocess` did: its outcome, whether a
child process was spawned, whether the child is alive at return, whether
this invocation's monitor thread is still running at return, the resolved
effective limit (the local `limit_gb` after line 203; `0` when the
resolver aborted), and the module state left behind. -/
structure RunReport where
  result : RunResult
  spawned : Bool
  child_alive : Bool
  monitor_alive : Bool
  resolved_limit : ℚ
  state : ModState
deriving DecidableEq

/-- Model of `run_subprocess(command, process_message, limit_gb,
path_to_check, timeout)` from `misc.py`. `basePath` is the constant
`configs.BASE_PATH`, the default folder of `get_disk_usage` (the resolver
at line 303 calls `get_disk_usage()` with no argument). Control flow of
the source:
1. resolve the limit via `check_available_node_space` (an unparsable `df`
   output raises `HTTPException` before anything is spawned);
2. pre-flight: if `get_disk_usage(path_to_check) > limit_gb`, raise
   `DiskSpaceExceeded` without spawning;
3. start the monitor daemon thread, spawn the child, `wait(timeout)`;
4. `TimeoutExpired`: terminate the child, re-raise;
5. child exited: if `stop_thread.is_set()` raise `DiskSpaceExceeded`
   (before the return code is looked at); else code 0 returns normally;
   a nonzero code raises `HTTPException(stderr)`.
The monitor thread is never stopped or joined by the runner: it stays
alive at return unless it observed a breach and exited itself. -/
def run_subprocess (basePath : DirPath) (env : Env) (st : ModState)
    (limit_gb : ℤ) (path_to_check : DirPath) : RunReport :=
  match env.free_parse with
  | none => ⟨.capacityError, false, false, false, 0, st⟩
  | some free =>
    let limit := check_available_node_space limit_gb free (get_disk_usage env.fs0 basePath)
    if get_disk_usage env.fs0 path_to_check > limit then
      ⟨.diskSpaceExceeded, false, false, false, limit, st⟩
    else
      let trips := monitor_disk_space_trips limit
        (env.samples.map (fun fs => get_disk_usage fs path_to_check))
      let flag := st.stop_thread || trips
      match env.child_exit with
      | none => ⟨.timeoutExpired, true, false, !trips, limit, ⟨flag⟩⟩
      | some code =>
        if flag then ⟨.diskSpaceExceeded, true, false, !trips, limit, ⟨flag⟩⟩
        else if code = 0 then ⟨.success, true, false, !trips, limit, ⟨flag⟩⟩
        else ⟨.httpException code, true, false, !trips, limit, ⟨flag⟩⟩

/-- Modelled from the spec: the resolver input the claim describes, with
`alreadyUsed` measured at the watched path itself rather than at the
module default `configs.BASE_PATH`. Used to compare against what
`run_subprocess` actually computes. -/
def resolver_limit_claimed (fs : Fs) (limit_gb : ℤ) (free_gb : ℤ)
    (path_to_check : DirPath) : ℚ :=
  check_available_node_space limit_gb free_gb (get_disk_usage fs path_to_check)

/-! Concrete filesystems used by witnesses and counterexamples. -/

/-- Example filesystem: every directory is empty. -/
def fsEmpty : Fs := fun _ => 0

/-- Example filesystem: every directory holds exactly 10 GB of files. -/
def fsTen : Fs := fun _ => 10 * 1024 ^ 3

/-- Example filesystem: every directory holds exactly 20 GB of files. -/
def fsTwenty : Fs := fun _ => 20 * 1024 ^ 3

/-- Example filesystem: every directory holds 10 GB plus one byte. -/
def fsTenPlus : Fs := fun _ => 10 * 1024 ^ 3 + 1

/-- Example filesystem: the watched directory `"d"` holds 10 GB, every
other directory (in particular the base path `"b"`) is empty. -/
def fsSplit : Fs := fun p => if p = "d" then 10 * 1024 ^ 3 else 0


end Tbbrdet

namespace Tbbrdet

/-- Rounding with `roundHalfEven` is the identity on integers. -/
lemma roundHalfEven_intCast (n : ℤ) : roundHalfEven (n : ℚ) = n := by
  unfold roundHalfEven
  rw [Int.floor_intCast]
  norm_num

/-- Python `round(x, 2)` is the identity on exact multiples of `1/100`. -/
lemma pyRound2_div_100 (n : ℤ) : pyRound2 ((n : ℚ) / 100) = (n : ℚ) / 100 := by
  unfold pyRound2
  rw [show (100 : ℚ) * ((n : ℚ) / 100) = (n : ℚ) by ring, roundHalfEven_intCast]

/-- Python `round(x, 2)` is the identity on integers. -/
lemma pyRound2_intCast (n : ℤ) : pyRound2 (n : ℚ) = n := by
  have h := pyRound2_div_100 (100 * n)
  rw [show ((100 * n : ℤ) : ℚ) / 100 = (n : ℚ) by push_cast; ring] at h
  exact h

/-- Evaluation of the disk-usage probe on a byte total that is an exact
whole number of GB. -/
lemma get_disk_usage_eval (fs : Fs) (p : DirPath) (g : ℕ) (h : fs p = g * 1024 ^ 3) :
    get_disk_usage fs p = g := by
  unfold get_disk_usage
  rw [h]
  rw [show ((g * 1024 ^ 3 : ℕ) : ℚ) / 1024 ^ 3 = ((g : ℤ) : ℚ) by push_cast; ring]
  rw [pyRound2_intCast]
  norm_num

end Tbbrdet

namespace Tbbrdet

lemma gdu_fsEmpty (p : DirPath) : get_disk_usage fsEmpty p = 0 :=
  get_disk_usage_eval fsEmpty p 0 (by norm_num [fsEmpty])

lemma gdu_fsTen (p : DirPath) : get_disk_usage fsTen p = 10 :=
  get_disk_usage_eval fsTen p 10 (by norm_num [fsTen])

lemma gdu_fsTwenty (p : DirPath) : get_disk_usage fsTwenty p = 20 :=
  get_disk_usage_eval fsTwenty p 20 (by norm_num [fsTwenty])

lemma gdu_fsSplit_d : get_disk_usage fsSplit "d" = 10 :=
  get_disk_usage_eval fsSplit "d" 10 (by norm_num [fsSplit])

lemma gdu_fsSplit_b : get_disk_usage fsSplit "b" = 0 :=
  get_disk_usage_eval fsSplit "b" 0 (by unfold fsSplit; rw [if_neg (by decide)]; norm_num)

/-- Rounding 10 GB plus one byte to two decimals gives exactly 10:
the probe's rounded figure hides the extra byte. -/
lemma gdu_fsTenPlus (p : DirPath) : get_disk_usage fsTenPlus p = 10 := by
  unfold get_disk_usage fsTenPlus
  have harg : ((10 * 1024 ^ 3 + 1 : ℕ) : ℚ) / 1024 ^ 3 = 10737418241 / 1073741824 := by
    norm_num
  rw [harg]
  have hfl : ⌊(100 : ℚ) * (10737418241 / 1073741824)⌋ = 1000 := by
    rw [Int.floor_eq_iff]
    constructor <;> norm_num
  unfold pyRound2 roundHalfEven
  rw [hfl]
  rw [if_pos (by norm_num)]
  norm_num

/-- Evaluation of the resolver when the current usage is an integer. -/
lemma check_available_node_space_intCast (limit_gb free_gb cur : ℤ) :
    check_available_node_space limit_gb free_gb (cur : ℚ) =
      if (((limit_gb - cur : ℤ) : ℚ) < ((max (free_gb - 3) 0 : ℤ) : ℚ))
      then (limit_gb : ℚ) else ((cur + max (free_gb - 3) 0 : ℤ) : ℚ) := by
  simp only [check_available_node_space]
  rw [show (limit_gb : ℚ) - cur = ((limit_gb - cur : ℤ) : ℚ) by push_cast; ring]
  rw [pyRound2_intCast]
  rw [show ((cur : ℚ) + ((max (free_gb - 3) 0 : ℤ) : ℚ))
      = ((cur + max (free_gb - 3) 0 : ℤ) : ℚ) by push_cast; ring]
  rw [pyRound2_intCast]

end Tbbrdet

namespace Tbbrdet

/-! Concrete resolver evaluations used in witnesses. -/

lemma cans_10_100_0 : check_available_node_space 10 100 0 = 10 := by
  have h := check_available_node_space_intCast 10 100 0
  norm_num [max_def] at h
  exact h

lemma cans_10_100_10 : check_available_node_space 10 100 10 = 10 := by
  have h := check_available_node_space_intCast 10 100 10
  norm_num [max_def] at h
  exact h

lemma cans_10_4_20 : check_available_node_space 10 4 20 = 10 := by
  have h := check_available_node_space_intCast 10 4 20
  norm_num [max_def] at h
  exact h

lemma cans_10_4_0 : check_available_node_space 10 4 0 = 1 := by
  have h := check_available_node_space_intCast 10 4 0
  norm_num [max_def] at h
  exact h

lemma cans_10_4_10 : check_available_node_space 10 4 10 = 10 := by
  have h := check_available_node_space_intCast 10 4 10
  norm_num [max_def] at h
  exact h

end Tbbrdet

namespace Tbbrdet

/-- Claim C1: for every invocation of `run_subprocess`, if the disk usage
of `path_to_check` is strictly greater than the resolved effective limit
before launch, the call fails with `DiskSpaceExceeded` and no child
process is ever spawned. -/
theorem run_subprocess_preflight_quota_rejects
    (basePath : DirPath) (env : Env) (st : ModState) (limit_gb : ℤ)
    (p : DirPath) (free : ℤ)
    (hf : env.free_parse = some free)
    (h : get_disk_usage env.fs0 p >
      check_available_node_space limit_gb free (get_disk_usage env.fs0 basePath)) :
    (run_subprocess basePath env st limit_gb p).result = .diskSpaceExceeded
      ∧ (run_subprocess basePath env st limit_gb p).spawned = false := by
  simp only [run_subprocess, hf]
  rw [if_pos h]
  exact ⟨rfl, rfl⟩

/-- Witness for C1: quota 10 GB, node free space 4 GB, watched path at
20 GB at invocation start. -/
theorem run_subprocess_preflight_quota_rejects_witness :
    (run_subprocess "b" ⟨fsTwenty, some 4, [], some 0⟩ ⟨false⟩ 10 "d").result
        = .diskSpaceExceeded
      ∧ (run_subprocess "b" ⟨fsTwenty, some 4, [], some 0⟩ ⟨false⟩ 10 "d").spawned
        = false :=
  run_subprocess_preflight_quota_rejects "b" ⟨fsTwenty, some 4, [], some 0⟩
    ⟨false⟩ 10 "d" 4 rfl
    (by rw [gdu_fsTwenty, gdu_fsTwenty, cans_10_4_20]; norm_num)

/-- Claim C2: for every invocation of `run_subprocess` in which the
cancellation signal has been set by the monitor by the time the child
process completes, the invocation fails with `DiskSpaceExceeded`
regardless of the child's exit code, even when the child exited with
code 0. -/
theorem run_subprocess_flag_overrides_exit_code
    (basePath : DirPath) (env : Env) (st : ModState) (limit_gb : ℤ)
    (p : DirPath) (free code : ℤ)
    (hf : env.free_parse = some free)
    (hpre : ¬ get_disk_usage env.fs0 p >
      check_available_node_space limit_gb free (get_disk_usage env.fs0 basePath))
    (hc : env.child_exit = some code)
    (ht : monitor_disk_space_trips
        (check_available_node_space limit_gb free (get_disk_usage env.fs0 basePath))
        (env.samples.map fun fs => get_disk_usage fs p) = true) :
    (run_subprocess basePath env st limit_gb p).result = .diskSpaceExceeded := by
  simp only [run_subprocess, hf]
  rw [if_neg hpre]
  simp [hc, ht]

/-- Witness for C2: the child exits with code 0 but the monitor sampled
20 GB against a 10 GB limit during the run. -/
theorem run_subprocess_flag_overrides_exit_code_witness :
    (run_subprocess "b" ⟨fsEmpty, some 100, [fsTwenty], some 0⟩ ⟨false⟩ 10 "d").result
      = .diskSpaceExceeded :=
  run_subprocess_flag_overrides_exit_code "b" ⟨fsEmpty, some 100, [fsTwenty], some 0⟩
    ⟨false⟩ 10 "d" 100 0 rfl
    (by rw [gdu_fsEmpty, gdu_fsEmpty, cans_10_100_0]; norm_num)
    rfl
    (by rw [gdu_fsEmpty, cans_10_100_0]
        simp [monitor_disk_space_trips, gdu_fsTwenty]
        norm_num)

/-- Claim C6: for every invocation of `run_subprocess` whose child process
does not exit within the timeout, the invocation fails with
`TimeoutExpired` and the child process is not alive after the invocation
returns. -/
theorem run_subprocess_timeout_kills_child
    (basePath : DirPath) (env : Env) (st : ModState) (limit_gb : ℤ)
    (p : DirPath) (free : ℤ)
    (hf : env.free_parse = some free)
    (hpre : ¬ get_disk_usage env.fs0 p >
      check_available_node_space limit_gb free (get_disk_usage env.fs0 basePath))
    (hc : env.child_exit = none) :
    (run_subprocess basePath env st limit_gb p).result = .timeoutExpired
      ∧ (run_subprocess basePath env st limit_gb p).child_alive = false := by
  simp only [run_subprocess, hf]
  rw [if_neg hpre]
  simp [hc]

/-- Witness for C6: the child is still running when the 500-second wait
expires. -/
theorem run_subprocess_timeout_kills_child_witness :
    (run_subprocess "b" ⟨fsEmpty, some 100, [], none⟩ ⟨false⟩ 10 "d").result
        = .timeoutExpired
      ∧ (run_subprocess "b" ⟨fsEmpty, some 100, [], none⟩ ⟨false⟩ 10 "d").child_alive
        = false :=
  run_subprocess_timeout_kills_child "b" ⟨fsEmpty, some 100, [], none⟩
    ⟨false⟩ 10 "d" 100 rfl
    (by rw [gdu_fsEmpty, gdu_fsEmpty, cans_10_100_0]; norm_num)
    rfl

end Tbbrdet

namespace Tbbrdet

/-- Claim C3 (amended): for every requested quota, node free space and
already-used amount (a two-decimal GB figure `n / 100`, as the probe
produces), the resolver retains the requested quota when the remaining
budget is below the clamped available space `max (free - 3) 0`, shrinks
it to `used + max (free - 3) 0` otherwise, and in both cases the returned
limit minus the already-used amount never exceeds `max (free - 3) 0`
(the unclamped bound `free - 3` fails when the free space is below the
3 GB buffer, see the counterexample). -/
theorem check_available_node_space_clamped_bound (limit_gb free_gb n : ℤ) :
    check_available_node_space limit_gb free_gb ((n : ℚ) / 100)
        = (if (limit_gb : ℚ) - (n : ℚ) / 100 < ((max (free_gb - 3) 0 : ℤ) : ℚ)
           then (limit_gb : ℚ)
           else (n : ℚ) / 100 + ((max (free_gb - 3) 0 : ℤ) : ℚ))
      ∧ check_available_node_space limit_gb free_gb ((n : ℚ) / 100) - (n : ℚ) / 100
          ≤ ((max (free_gb - 3) 0 : ℤ) : ℚ) := by
  have havail : pyRound2 ((limit_gb : ℚ) - (n : ℚ) / 100)
      = (limit_gb : ℚ) - (n : ℚ) / 100 := by
    rw [show (limit_gb : ℚ) - (n : ℚ) / 100 = ((100 * limit_gb - n : ℤ) : ℚ) / 100 by
      push_cast; ring]
    rw [pyRound2_div_100]
  have hsum : pyRound2 ((n : ℚ) / 100 + ((max (free_gb - 3) 0 : ℤ) : ℚ))
      = (n : ℚ) / 100 + ((max (free_gb - 3) 0 : ℤ) : ℚ) := by
    rw [show (n : ℚ) / 100 + ((max (free_gb - 3) 0 : ℤ) : ℚ)
        = ((n + 100 * max (free_gb - 3) 0 : ℤ) : ℚ) / 100 by push_cast; ring]
    rw [pyRound2_div_100]
  have heq : check_available_node_space limit_gb free_gb ((n : ℚ) / 100)
      = (if (limit_gb : ℚ) - (n : ℚ) / 100 < ((max (free_gb - 3) 0 : ℤ) : ℚ)
         then (limit_gb : ℚ)
         else (n : ℚ) / 100 + ((max (free_gb - 3) 0 : ℤ) : ℚ)) := by
    simp only [check_available_node_space]
    rw [havail, hsum]
  refine ⟨heq, ?_⟩
  rw [heq]
  by_cases h : (limit_gb : ℚ) - (n : ℚ) / 100 < ((max (free_gb - 3) 0 : ℤ) : ℚ)
  · rw [if_pos h]
    linarith
  · rw [if_neg h]
    linarith

/-- Counterexample to C3 as stated: with requested quota 10 GB, node free
space 0 GB and 5 GB already used, the resolver returns 5, so the returned
limit minus the already-used amount is 0, which exceeds the unclamped
bound `free - 3 = -3`. -/
theorem check_available_node_space_exceeds_unclamped_bound :
    check_available_node_space 10 0 5 = 5
      ∧ ¬ (check_available_node_space 10 0 5 - 5 ≤ (0 : ℚ) - 3) := by
  have h := check_available_node_space_intCast 10 0 5
  norm_num [max_def] at h
  refine ⟨h, ?_⟩
  rw [h]
  norm_num

/-- Claim C4 (code defect witnessed): `stop_thread` is one module-level
event shared by every invocation and never cleared, so a quota breach
observed by the monitor of one invocation makes a later invocation —
whose usage stays at 0 GB throughout and whose child exits with code 0 —
fail with `DiskSpaceExceeded` instead of succeeding. -/
theorem stop_thread_poisons_later_invocation :
    (run_subprocess "b" ⟨fsEmpty, some 100, [fsTwenty], some 0⟩ ⟨false⟩ 10 "d").state.stop_thread
        = true
      ∧ (run_subprocess "b" ⟨fsEmpty, some 100, [], some 0⟩
          (run_subprocess "b" ⟨fsEmpty, some 100, [fsTwenty], some 0⟩ ⟨false⟩ 10 "d").state
          10 "d").result = .diskSpaceExceeded := by
  have ht : monitor_disk_space_trips 10 (([fsTwenty] : List Fs).map
      (fun fs => get_disk_usage fs "d")) = true := by
    simp [monitor_disk_space_trips, gdu_fsTwenty]
    norm_num
  have h1 : (run_subprocess "b" ⟨fsEmpty, some 100, [fsTwenty], some 0⟩ ⟨false⟩ 10 "d").state
      = ⟨true⟩ := by
    simp only [run_subprocess, gdu_fsEmpty, cans_10_100_0, ht]
    norm_num
  have h2 : (run_subprocess "b" ⟨fsEmpty, some 100, [], some 0⟩ ⟨true⟩ 10 "d").result
      = .diskSpaceExceeded := by
    simp only [run_subprocess, gdu_fsEmpty, cans_10_100_0]
    norm_num [monitor_disk_space_trips]
  refine ⟨by rw [h1], ?_⟩
  rw [h1]
  exact h2

/-- Claim C5 (code defect witnessed): on the success path the monitor
thread is not stopped by the runner — its `while True` loop never
observed a breach, so it is still running when `run_subprocess`
returns. -/
theorem monitor_thread_outlives_success :
    (run_subprocess "b" ⟨fsEmpty, some 100, [], some 0⟩ ⟨false⟩ 10 "d").result = .success
      ∧ (run_subprocess "b" ⟨fsEmpty, some 100, [], some 0⟩ ⟨false⟩ 10 "d").monitor_alive
        = true := by
  simp only [run_subprocess, gdu_fsEmpty, cans_10_100_0]
  norm_num [monitor_disk_space_trips]

end Tbbrdet

namespace Tbbrdet

/-- Counterexample to C7 as stated: with base path `"b"` empty, watched
path `"d"` at 10 GB, quota 10 GB and node free space 4 GB, the runner
resolves the limit to 1 GB (it measures the base path, finding 0 GB
used), while a resolver fed the watched path's own usage would return
10 GB. -/
theorem resolver_ignores_watch_path :
    (run_subprocess "b" ⟨fsSplit, some 4, [], some 0⟩ ⟨false⟩ 10 "d").resolved_limit = 1
      ∧ resolver_limit_claimed fsSplit 10 4 "d" = 10
      ∧ (run_subprocess "b" ⟨fsSplit, some 4, [], some 0⟩ ⟨false⟩ 10 "d").resolved_limit
          ≠ resolver_limit_claimed fsSplit 10 4 "d" := by
  have hrun : (run_subprocess "b" ⟨fsSplit, some 4, [], some 0⟩ ⟨false⟩ 10 "d").resolved_limit
      = 1 := by
    simp only [run_subprocess, gdu_fsSplit_b, gdu_fsSplit_d, cans_10_4_0]
    norm_num
  have hcl : resolver_limit_claimed fsSplit 10 4 "d" = 10 := by
    simp only [resolver_limit_claimed, gdu_fsSplit_d, cans_10_4_10]
  refine ⟨hrun, hcl, ?_⟩
  rw [hrun, hcl]
  norm_num

/-- Claim C7 (amended): the capacity resolver inside `run_subprocess`
computes `alreadyUsed` as the disk usage of the module default
`configs.BASE_PATH` (the no-argument call `get_disk_usage()`), not of
`path_to_check`; it therefore measures the same directory tree as the
pre-flight check and the monitor exactly when `path_to_check` is the base
path. -/
theorem run_subprocess_resolver_uses_base_path
    (basePath : DirPath) (env : Env) (st : ModState) (limit_gb : ℤ)
    (p : DirPath) (free : ℤ)
    (hf : env.free_parse = some free) :
    (run_subprocess basePath env st limit_gb p).resolved_limit
        = resolver_limit_claimed env.fs0 limit_gb free basePath
      ∧ (p = basePath →
          (run_subprocess basePath env st limit_gb p).resolved_limit
            = resolver_limit_claimed env.fs0 limit_gb free p) := by
  have h : (run_subprocess basePath env st limit_gb p).resolved_limit
      = resolver_limit_claimed env.fs0 limit_gb free basePath := by
    simp only [run_subprocess, hf, resolver_limit_claimed]
    split
    · rfl
    · split
      · rfl
      · split
        · rfl
        · split
          · rfl
          · rfl
  refine ⟨h, fun hp => ?_⟩
  rw [hp] at h ⊢
  exact h

/-- Witness for C7 (amended): the resolver limit recorded by a run always
equals the one computed from the base path's usage, and coincides with
the watched path's version when the two paths are equal. -/
theorem run_subprocess_resolver_uses_base_path_witness :
    (run_subprocess "b" ⟨fsSplit, some 4, [], some 0⟩ ⟨false⟩ 10 "d").resolved_limit
        = resolver_limit_claimed fsSplit 10 4 "b"
      ∧ (run_subprocess "b" ⟨fsTen, some 100, [], some 0⟩ ⟨false⟩ 10 "b").resolved_limit
        = resolver_limit_claimed fsTen 10 100 "b" :=
  ⟨(run_subprocess_resolver_uses_base_path "b" ⟨fsSplit, some 4, [], some 0⟩
      ⟨false⟩ 10 "d" 4 rfl).1,
   (run_subprocess_resolver_uses_base_path "b" ⟨fsTen, some 100, [], some 0⟩
      ⟨false⟩ 10 "b" 100 rfl).2 rfl⟩

/-- Counterexample to C8 as stated: with the watched path holding 10 GB
plus one byte against a resolved limit of 10 GB, the full-precision byte
total strictly exceeds the limit, yet the pre-flight comparison — which
uses the two-decimal rounded figure 10.00 — passes and the child is
spawned. -/
theorem preflight_compares_rounded_not_bytes :
    (run_subprocess "b" ⟨fsTenPlus, some 100, [], some 0⟩ ⟨false⟩ 10 "b").spawned = true
      ∧ ((fsTenPlus "b" : ℚ) / 1024 ^ 3
          > (run_subprocess "b" ⟨fsTenPlus, some 100, [], some 0⟩ ⟨false⟩ 10 "b").resolved_limit) := by
  have hsp : (run_subprocess "b" ⟨fsTenPlus, some 100, [], some 0⟩ ⟨false⟩ 10 "b").spawned
      = true := by
    simp only [run_subprocess, gdu_fsTenPlus, cans_10_100_10]
    norm_num [monitor_disk_space_trips]
  have hrl : (run_subprocess "b" ⟨fsTenPlus, some 100, [], some 0⟩ ⟨false⟩ 10 "b").resolved_limit
      = 10 := by
    simp only [run_subprocess, gdu_fsTenPlus, cans_10_100_10]
    norm_num [monitor_disk_space_trips]
  refine ⟨hsp, ?_⟩
  rw [hrl]
  unfold fsTenPlus
  norm_num

/-- Claim C8 (amended): the probe returns the two-decimal rounded GB
figure and every quota comparison made by `run_subprocess` (pre-flight,
monitor sampling, capacity resolution) uses that rounded figure: two
invocations whose filesystems are indistinguishable through the rounded
probe behave identically, byte-level differences notwithstanding. -/
theorem run_subprocess_depends_only_on_rounded_usage
    (basePath : DirPath) (st : ModState) (limit_gb : ℤ) (p : DirPath)
    (envA envB : Env)
    (hfree : envA.free_parse = envB.free_parse)
    (hce : envA.child_exit = envB.child_exit)
    (hb : get_disk_usage envA.fs0 basePath = get_disk_usage envB.fs0 basePath)
    (hp : get_disk_usage envA.fs0 p = get_disk_usage envB.fs0 p)
    (hs : envA.samples.map (fun fs => get_disk_usage fs p)
        = envB.samples.map (fun fs => get_disk_usage fs p)) :
    run_subprocess basePath envA st limit_gb p
      = run_subprocess basePath envB st limit_gb p := by
  unfold run_subprocess
  simp only [hfree, hce, hb, hp, hs]

/-- Witness for C8 (amended): 10 GB plus one byte and exactly 10 GB are
indistinguishable through the rounded probe, so the two runs coincide. -/
theorem run_subprocess_depends_only_on_rounded_usage_witness :
    run_subprocess "b" ⟨fsTenPlus, some 100, [], some 0⟩ ⟨false⟩ 10 "b"
      = run_subprocess "b" ⟨fsTen, some 100, [], some 0⟩ ⟨false⟩ 10 "b" :=
  run_subprocess_depends_only_on_rounded_usage "b" ⟨false⟩ 10 "b"
    ⟨fsTenPlus, some 100, [], some 0⟩ ⟨fsTen, some 100, [], some 0⟩ rfl rfl
    (by rw [gdu_fsTenPlus, gdu_fsTen]) (by rw [gdu_fsTenPlus, gdu_fsTen]) rfl

/-- Claim C9: no operation in the module ever clears `stop_thread` once
set — an invocation entered with the flag set leaves it set, and if its
child completes before the timeout (the pre-flight having passed), the
invocation fails with `DiskSpaceExceeded` regardless of the disk usage
observed during it. -/
theorem stop_thread_never_cleared
    (basePath : DirPath) (env : Env) (st : ModState) (limit_gb : ℤ) (p : DirPath)
    (hset : st.stop_thread = true) :
    (run_subprocess basePath env st limit_gb p).state.stop_thread = true
      ∧ (∀ free code,
          env.free_parse = some free →
          env.child_exit = some code →
          ¬ get_disk_usage env.fs0 p >
            check_available_node_space limit_gb free (get_disk_usage env.fs0 basePath) →
          (run_subprocess basePath env st limit_gb p).result = .diskSpaceExceeded) := by
  constructor
  · rcases hfp : env.free_parse with _ | free
    · simp [run_subprocess, hfp, hset]
    · simp only [run_subprocess, hfp]
      split
      · exact hset
      · split
        · simp [hset]
        · simp [hset]
  · intro free code hf hc hpre
    simp only [run_subprocess, hf]
    rw [if_neg hpre]
    simp [hc, hset]

/-- Witness for C9: an invocation starting with `stop_thread` already set,
an empty watched path and a child exiting 0 still fails with
`DiskSpaceExceeded`, and leaves the flag set. -/
theorem stop_thread_never_cleared_witness :
    (run_subprocess "b" ⟨fsEmpty, some 100, [], some 0⟩ ⟨true⟩ 10 "d").state.stop_thread
        = true
      ∧ (run_subprocess "b" ⟨fsEmpty, some 100, [], some 0⟩ ⟨true⟩ 10 "d").result
        = .diskSpaceExceeded :=
  ⟨(stop_thread_never_cleared "b" ⟨fsEmpty, some 100, [], some 0⟩ ⟨true⟩ 10 "d" rfl).1,
   (stop_thread_never_cleared "b" ⟨fsEmpty, some 100, [], some 0⟩ ⟨true⟩ 10 "d" rfl).2
     100 0 rfl rfl (by rw [gdu_fsEmpty, gdu_fsEmpty, cans_10_100_0]; norm_num)⟩

/-- Claim C10: when the usage of the watched path exactly equals the
resolved limit, the pre-flight check (strict `>`) passes and the child is
spawned, while the monitor (`>=`) treats the same equality as a breach
and sets the cancellation signal at its first sample. -/
theorem quota_boundary_asymmetry
    (basePath : DirPath) (env : Env) (st : ModState) (limit_gb : ℤ)
    (p : DirPath) (free : ℤ)
    (hf : env.free_parse = some free)
    (heq : get_disk_usage env.fs0 p
        = check_available_node_space limit_gb free (get_disk_usage env.fs0 basePath))
    (hs : env.samples = [env.fs0]) :
    (run_subprocess basePath env st limit_gb p).spawned = true
      ∧ (run_subprocess basePath env st limit_gb p).state.stop_thread = true := by
  have hpre : ¬ get_disk_usage env.fs0 p >
      check_available_node_space limit_gb free (get_disk_usage env.fs0 basePath) := by
    rw [heq]
    exact lt_irrefl _
  have ht : monitor_disk_space_trips
      (check_available_node_space limit_gb free (get_disk_usage env.fs0 basePath))
      (env.samples.map fun fs => get_disk_usage fs p) = true := by
    rw [hs]
    simp [monitor_disk_space_trips, ← heq]
  simp only [run_subprocess, hf]
  rw [if_neg hpre, ht]
  split <;> simp

/-- Witness for C10: usage exactly 10 GB against a resolved limit of
10 GB — the child is spawned and the monitor's first sample sets the
flag. -/
theorem quota_boundary_asymmetry_witness :
    (run_subprocess "b" ⟨fsTen, some 100, [fsTen], some 0⟩ ⟨false⟩ 10 "b").spawned = true
      ∧ (run_subprocess "b" ⟨fsTen, some 100, [fsTen], some 0⟩ ⟨false⟩ 10 "b").state.stop_thread
        = true :=
  quota_boundary_asymmetry "b" ⟨fsTen, some 100, [fsTen], some 0⟩ ⟨false⟩ 10 "b" 100 rfl
    (by rw [gdu_fsTen, cans_10_100_10]) rfl

end Tbbrdet
